import Mathlib

/-!
Verification of the quinn-h3 body adapters and server request machine.

The development shallow-embeds `src/quinn-h3/src/body.rs` and
`src/quinn-h3/src/server.rs`.  External collaborators that live outside
those files (the frame codec, the header codec, the transport stream
primitives and the shared connection state) are modelled from the spec:
polling an external future or stream is represented by an oracle event
consumed from a list, and side effects visible to the peer or to the
connection state (stream resets, the `request_finished` notification)
are recorded in an explicit effect list.  A Rust `panic!` (or a
panicking `unwrap`) is modelled by an `Option` result being `none`.
-/

namespace QuinnH3

/-- Modelled from the spec: transport-assigned stream identifier. -/
abbrev StreamId := Nat

/-- Modelled from the spec: symbolic stream-reset error codes
(request-cancelled, request-rejected, frame-unexpected, plus a general
internal/protocol-error fallback); `proto::ErrorCode` is outside src. -/
inductive ErrorCode
  | REQUEST_CANCELLED
  | REQUEST_REJECTED
  | FRAME_UNEXPECTED
  | INTERNAL_ERROR
deriving DecidableEq, Repr

/-- Modelled from the spec: a header field is a name/value pair. -/
abbrev HeaderField := String × String

/-- Modelled from the spec: an ordered list of name/value pairs
(`proto::headers::Header` is outside src). -/
abbrev Header := List HeaderField

/-- Modelled from the spec: the `http::HeaderMap` trailer map, likewise an
ordered field list. -/
abbrev HeaderMap := List HeaderField

/-- Modelled from the spec: a HEADERS frame carrying a compressed header
block (`proto::frame::HeadersFrame` is outside src); the block is opaque
here. -/
structure HeadersFrame where
  block : List Nat
deriving DecidableEq, Repr

/-- Modelled from the spec: a DATA frame with opaque payload bytes
(`proto::frame::DataFrame` is outside src). -/
structure DataFrame where
  payload : List Nat
deriving DecidableEq, Repr

/-- Modelled from the spec: tagged frame variants — DATA, HEADERS, and
other settings/control frames (`proto::frame::HttpFrame` is outside src). -/
inductive HttpFrame
  | Data (d : DataFrame)
  | Headers (h : HeadersFrame)
  | Settings
  | Goaway
deriving DecidableEq, Repr

/-- Modelled from the spec: one observable outcome of polling the frame
stream (the frame codec is outside src): the poll is not ready, yields a
frame, or yields a frame-level decode error carrying a reset code. -/
inductive FrameEvent
  | pending
  | frame (f : HttpFrame)
  | frameErr (code : ErrorCode)
deriving DecidableEq, Repr

/-- Modelled from the spec: the lazy per-stream frame sequence; an
exhausted list is the graceful end of the stream (`Poll::Ready(None)`). -/
abbrev FrameStream := List FrameEvent

/-- Kinds of `std::io::Error` produced by the body adapters. -/
inductive IoErrorKind
  | WouldBlock
  | Other
  | InvalidData
deriving DecidableEq, Repr

/-- An `std::io::Error`: a kind plus a message. -/
structure IoError where
  kind : IoErrorKind
  msg : String
deriving DecidableEq, Repr

/-- The `futures::Poll` outcome of a poll-based operation. -/
inductive Poll (α : Type)
  | ready (a : α)
  | pending
deriving DecidableEq, Repr

/-- The crate-level `Error` type as used from src: peer protocol errors
with a message, frame-level errors carrying a code, and internal usage
errors (the exact enum lives outside src). -/
inductive Error
  | peer (msg : String)
  | frameErr (code : ErrorCode)
  | internal (msg : String)
deriving DecidableEq, Repr

/-- Observable side effects on the transport and the shared connection
state: resetting the receive half, resetting the send half, the
`request_finished` notification, and (modelled from the spec) writing a
trailing HEADERS frame or finishing the send stream. -/
inductive Effect
  | resetRecv (code : ErrorCode)
  | resetSend (code : ErrorCode)
  | requestFinished (id : StreamId)
  | sentTrailers (t : HeaderMap)
  | finishedSend
deriving DecidableEq, Repr

/-- Is this effect the `request_finished` notification? -/
def Effect.isFinish : Effect → Bool
  | Effect.requestFinished _ => true
  | _ => false

/-- Modelled from the spec: the writable half of a stream (`quinn::SendStream`
is an external collaborator); only its identifier is relevant here. -/
structure SendStream where
  id : StreamId
deriving DecidableEq, Repr

/-- Modelled from the spec: an in-flight frame write (`frame::WriteFrame`
is outside src): it owns the send stream and the frame being written. -/
structure WriteFrame where
  send : SendStream
  frame : DataFrame
deriving DecidableEq, Repr

/-- Modelled from the spec: one observable outcome of polling an external
write/flush/close future on the send half. -/
inductive WriteEvent
  | ready
  | pending
  | ioErrored (e : IoError)
deriving DecidableEq, Repr

/-- Modelled from the spec: a pending asynchronous header-block decode
(`headers::DecodeHeaders` is outside src); it owns the frame and the id
of the stream it decodes for. -/
structure DecodeHeaders where
  frame : HeadersFrame
  stream_id : StreamId
deriving DecidableEq, Repr

/-- Modelled from the spec: one observable outcome of polling a header
decode future: still waiting on table insertions, completed with a header
list, or failed. -/
inductive DecodeEvent
  | ready (h : Header)
  | pending
  | failed (e : Error)
deriving DecidableEq, Repr

/-- Modelled from the spec: the application-visible request head built
from the decoded header list; the header-to-parts conversion
(`Header::into_request_parts`) lives outside src and is modelled as
total. -/
structure Request where
  headers : Header
deriving DecidableEq, Repr

end QuinnH3

namespace QuinnH3

/-! ### BodyReader (src/quinn-h3/src/body.rs, lines 104-238) -/

/-- The `BodyReader` state: the frame stream (`Option` since error paths
take it, and a later `unwrap` panics), the retained trailing HEADERS
frame, the stream id, the residual byte buffer left over from an
oversized DATA frame, and the request-lifecycle responsibility flag.
The `conn` field (shared connection handle) is represented only through
the effects emitted. -/
structure BodyReader where
  recv : Option FrameStream
  trailers : Option HeadersFrame
  stream_id : StreamId
  buf : Option (List Nat)
  finish_request : Bool
deriving DecidableEq, Repr

/-- `BodyReader::new` (body.rs 114-128). -/
def BodyReader.new (recv : FrameStream) (stream_id : StreamId) (finish_request : Bool) :
    BodyReader :=
  { recv := some recv
    trailers := none
    stream_id := stream_id
    buf := none
    finish_request := finish_request }

/-- `BodyReader::buf_read` (body.rs 130-142): drain up to `len` bytes from
the residual buffer, clearing it when it empties; returns the bytes
copied out together with the updated reader. -/
def BodyReader.buf_read (r : BodyReader) (len : Nat) : List Nat × BodyReader :=
  match r.buf with
  | none => ([], r)
  | some b =>
      let size := min len b.length
      (b.take size,
       { r with buf := if b.length ≤ size then none else some (b.drop size) })

/-- `BodyReader::buf_put` (body.rs 144-147): store the remainder of an
oversized DATA frame.  The source asserts the buffer is empty; on every
reachable path the buffer was fully drained just before. -/
def BodyReader.buf_put (r : BodyReader) (b : List Nat) : BodyReader :=
  { r with buf := some b }

/-- The outcome of one `poll_read` call: `Ready(Ok(n))` modelled by the
bytes written into the caller's buffer, or `Ready(Err(e))`.  The source
never returns `Poll::Pending` from `poll_read`. -/
inductive ReadOut
  | ok (bytes : List Nat)
  | err (e : IoError)
deriving DecidableEq, Repr

/-- `<BodyReader as AsyncRead>::poll_read` (body.rs 167-215) for a caller
buffer of length `len`.  Returns `none` when the source would panic (the
`self.recv.as_mut().unwrap()` after the stream was taken by an earlier
error path).  The third component lists the emitted effects.  The source
formats the frame-error message with the error value; the message is
abbreviated here. -/
def BodyReader.poll_read (r : BodyReader) (len : Nat) :
    Option (ReadOut × BodyReader × List Effect) :=
  let p := r.buf_read len
  let chunk := p.1
  let r1 := p.2
  if chunk.length = len then some (ReadOut.ok chunk, r1, [])
  else
    match r1.recv with
    | none => none
    | some [] => some (ReadOut.ok chunk, r1, [])
    | some (FrameEvent.pending :: rest) =>
        if 0 < chunk.length then
          some (ReadOut.ok chunk, { r1 with recv := some rest }, [])
        else
          some (ReadOut.err ⟨IoErrorKind.WouldBlock, "stream blocked"⟩,
                { r1 with recv := some rest }, [])
    | some (FrameEvent.frameErr c :: _) =>
        some (ReadOut.err ⟨IoErrorKind.Other, "read error"⟩,
              { r1 with recv := none }, [Effect.resetRecv c])
    | some (FrameEvent.frame (HttpFrame.Data d) :: rest) =>
        if len - chunk.length ≤ d.payload.length then
          some (ReadOut.ok (chunk ++ d.payload.take (len - chunk.length)),
                BodyReader.buf_put { r1 with recv := some rest }
                  (d.payload.drop (len - chunk.length)), [])
        else
          some (ReadOut.ok (chunk ++ d.payload), { r1 with recv := some rest }, [])
    | some (FrameEvent.frame (HttpFrame.Headers h) :: rest) =>
        some (ReadOut.ok chunk, { r1 with recv := some rest, trailers := some h }, [])
    | some (FrameEvent.frame _ :: _) =>
        some (ReadOut.err ⟨IoErrorKind.InvalidData, "received an invalid frame type"⟩,
              { r1 with recv := none }, [Effect.resetRecv ErrorCode.FRAME_UNEXPECTED])

/-- `BodyReader::trailers` (body.rs 149-158): takes the retained trailing
HEADERS frame and decodes it; `decode` stands for the external
`DecodeHeaders` header codec. -/
def BodyReader.trailersFn (r : BodyReader) (decode : HeadersFrame → Except Error Header) :
    Option (Except Error Header) × BodyReader :=
  match r.trailers with
  | none => (none, { r with trailers := none })
  | some ht => (some (decode ht), { r with trailers := none })

/-- `BodyReader::cancel` (body.rs 160-164): consumes the reader; if the
frame stream is still owned, reset it with `REQUEST_CANCELLED`. -/
def BodyReader.cancel (r : BodyReader) : List Effect :=
  match r.recv with
  | some _ => [Effect.resetRecv ErrorCode.REQUEST_CANCELLED]
  | none => []

/-- `<BodyReader as Drop>::drop` (body.rs 227-238): notify the connection
state that the request is finished, when this reader carries the
responsibility. -/
def BodyReader.drop (r : BodyReader) : List Effect :=
  if r.finish_request then [Effect.requestFinished r.stream_id] else []

/-- Run a sequence of `poll_read` calls (one caller-buffer length each),
accumulating the final reader state and the emitted effects; a panicking
read stops the run (unwinding begins). -/
def BodyReader.runReads : BodyReader → List Nat → BodyReader × List Effect
  | r, [] => (r, [])
  | r, len :: lens =>
      match r.poll_read len with
      | none => (r, [])
      | some (_, r1, es) =>
          let p := r1.runReads lens
          (p.1, es ++ p.2)

/-- How a `BodyReader` handle leaves scope: plain drop, or an explicit
`cancel` (which consumes the reader, so its drop still runs afterwards). -/
inductive ReaderExit
  | plainDrop
  | cancelFirst
deriving DecidableEq, Repr

/-- All effects emitted over a reader's lifetime: a sequence of reads,
then the chosen exit path, then the `Drop` that Rust ownership guarantees
runs exactly once. -/
def BodyReader.lifecycleEffects (r : BodyReader) (reads : List Nat) (ex : ReaderExit) :
    List Effect :=
  let p := r.runReads reads
  match ex with
  | ReaderExit.plainDrop => p.2 ++ p.1.drop
  | ReaderExit.cancelFirst => p.2 ++ p.1.cancel ++ p.1.drop

/-- Does the head event of the reader's frame stream carry a HEADERS
frame? -/
def BodyReader.recvHeadIsHeaders (r : BodyReader) : Bool :=
  match r.recv with
  | some (FrameEvent.frame (HttpFrame.Headers _) :: _) => true
  | _ => false

/-! ### BodyWriter (src/quinn-h3/src/body.rs, lines 240-409) -/

/-- `BodyWriterState` (body.rs 312-316). -/
inductive BodyWriterState
  | Idle (send : SendStream)
  | Writing (write : WriteFrame)
  | Finished
deriving DecidableEq, Repr

/-- The `BodyWriter` state (body.rs 240-246); the `conn` field is
represented only through the effects emitted. -/
structure BodyWriter where
  state : BodyWriterState
  stream_id : StreamId
  trailers : Option HeaderMap
  finish_request : Bool
deriving DecidableEq, Repr

/-- `BodyWriter::new` (body.rs 249-263). -/
def BodyWriter.new (send : SendStream) (stream_id : StreamId)
    (trailers : Option HeaderMap) (finish_request : Bool) : BodyWriter :=
  { state := BodyWriterState.Idle send
    stream_id := stream_id
    trailers := trailers
    finish_request := finish_request }

/-- `BodyWriter::trailers` (body.rs 265-272): replaces the state with
`Finished`; from idle it sends the trailing HEADERS frame and finishes
the stream (both external, recorded as effects); from any other state the
source panics (`none`).  The writer is consumed by value. -/
def BodyWriter.trailersFn (w : BodyWriter) (t : HeaderMap) :
    Option (BodyWriter × List Effect) :=
  match w.state with
  | BodyWriterState.Idle _ =>
      some ({ w with state := BodyWriterState.Finished },
            [Effect.sentTrailers t, Effect.finishedSend])
  | _ => none

/-- `BodyWriter::close` (body.rs 274-285): takes the stored trailer map
and replaces the state with `Finished`; from idle it either sends the
trailers or just finishes the stream; otherwise the source panics
(`none`).  The writer is consumed by value. -/
def BodyWriter.close (w : BodyWriter) : Option (BodyWriter × List Effect) :=
  match w.trailers, w.state with
  | some t, BodyWriterState.Idle _ =>
      some ({ w with trailers := none, state := BodyWriterState.Finished },
            [Effect.sentTrailers t, Effect.finishedSend])
  | none, BodyWriterState.Idle _ =>
      some ({ w with trailers := none, state := BodyWriterState.Finished },
            [Effect.finishedSend])
  | _, _ => none

/-- `BodyWriter::cancel` (body.rs 287-298): replaces the state with
`Finished` and resets the stream with `REQUEST_CANCELLED` from both the
idle and the in-flight state; a finished writer emits nothing. -/
def BodyWriter.cancel (w : BodyWriter) : BodyWriter × List Effect :=
  match w.state with
  | BodyWriterState.Idle _ =>
      ({ w with state := BodyWriterState.Finished },
       [Effect.resetSend ErrorCode.REQUEST_CANCELLED])
  | BodyWriterState.Writing _ =>
      ({ w with state := BodyWriterState.Finished },
       [Effect.resetSend ErrorCode.REQUEST_CANCELLED])
  | BodyWriterState.Finished =>
      ({ w with state := BodyWriterState.Finished }, [])

/-- `<BodyWriter as AsyncWrite>::poll_write` (body.rs 319-345): panics
(`none`) in the finished state; from idle it wraps the caller's bytes in
a DATA frame, transitions to writing and polls the in-flight write; from
writing it polls the in-flight write and, on completion, returns the
caller's byte count.  `ev` is the oracle outcome of polling the external
frame write. -/
def BodyWriter.poll_write (w : BodyWriter) (buf : List Nat) (ev : WriteEvent) :
    Option (Poll (Except IoError Nat) × BodyWriter) :=
  match w.state with
  | BodyWriterState.Finished => none
  | BodyWriterState.Idle send =>
      match ev with
      | WriteEvent.ready =>
          some (Poll.ready (Except.ok buf.length),
                { w with state := BodyWriterState.Idle send })
      | WriteEvent.pending =>
          some (Poll.pending,
                { w with state := BodyWriterState.Writing ⟨send, ⟨buf⟩⟩ })
      | WriteEvent.ioErrored e =>
          some (Poll.ready (Except.error e),
                { w with state := BodyWriterState.Writing ⟨send, ⟨buf⟩⟩ })
  | BodyWriterState.Writing wf =>
      match ev with
      | WriteEvent.ready =>
          some (Poll.ready (Except.ok buf.length),
                { w with state := BodyWriterState.Idle wf.send })
      | WriteEvent.pending => some (Poll.pending, w)
      | WriteEvent.ioErrored e => some (Poll.ready (Except.error e), w)

/-- `<BodyWriter as AsyncWrite>::poll_flush` (body.rs 347-361): a finished
writer reports success; an idle writer flushes the send half and, once
the flush completes, transitions to `Finished`; a writing writer first
completes the in-flight frame (returning to idle but staying pending).
`ev` is the oracle outcome of polling the external flush or write. -/
def BodyWriter.poll_flush (w : BodyWriter) (ev : WriteEvent) :
    Poll (Except IoError Unit) × BodyWriter :=
  match w.state with
  | BodyWriterState.Finished => (Poll.ready (Except.ok ()), w)
  | BodyWriterState.Idle _ =>
      match ev with
      | WriteEvent.ready =>
          (Poll.ready (Except.ok ()), { w with state := BodyWriterState.Finished })
      | WriteEvent.pending => (Poll.pending, w)
      | WriteEvent.ioErrored e => (Poll.ready (Except.error e), w)
  | BodyWriterState.Writing wf =>
      match ev with
      | WriteEvent.ready => (Poll.pending, { w with state := BodyWriterState.Idle wf.send })
      | WriteEvent.pending => (Poll.pending, w)
      | WriteEvent.ioErrored e => (Poll.ready (Except.error e), w)

/-- `<BodyWriter as AsyncWrite>::poll_close` (body.rs 363-377): same shape
as `poll_flush`, closing the send half instead of flushing it. -/
def BodyWriter.poll_close (w : BodyWriter) (ev : WriteEvent) :
    Poll (Except IoError Unit) × BodyWriter :=
  match w.state with
  | BodyWriterState.Finished => (Poll.ready (Except.ok ()), w)
  | BodyWriterState.Idle _ =>
      match ev with
      | WriteEvent.ready =>
          (Poll.ready (Except.ok ()), { w with state := BodyWriterState.Finished })
      | WriteEvent.pending => (Poll.pending, w)
      | WriteEvent.ioErrored e => (Poll.ready (Except.error e), w)
  | BodyWriterState.Writing wf =>
      match ev with
      | WriteEvent.ready => (Poll.pending, { w with state := BodyWriterState.Idle wf.send })
      | WriteEvent.pending => (Poll.pending, w)
      | WriteEvent.ioErrored e => (Poll.ready (Except.error e), w)

/-- `<BodyWriter as Drop>::drop` (body.rs 398-409): notify the connection
state that the request is finished, when this writer carries the
responsibility. -/
def BodyWriter.drop (w : BodyWriter) : List Effect :=
  if w.finish_request then [Effect.requestFinished w.stream_id] else []

/-- One `AsyncWrite` poll on the writer, with its oracle event. -/
inductive WriterOp
  | write (buf : List Nat) (ev : WriteEvent)
  | flushOp (ev : WriteEvent)
  | closeOp (ev : WriteEvent)
deriving DecidableEq, Repr

/-- Run a sequence of `AsyncWrite` polls; none of them emits effects, and
a panicking `poll_write` stops the run (unwinding begins). -/
def BodyWriter.runOps : BodyWriter → List WriterOp → BodyWriter
  | w, [] => w
  | w, WriterOp.write buf ev :: ops =>
      match w.poll_write buf ev with
      | none => w
      | some (_, w1) => w1.runOps ops
  | w, WriterOp.flushOp ev :: ops => ((w.poll_flush ev).2).runOps ops
  | w, WriterOp.closeOp ev :: ops => ((w.poll_close ev).2).runOps ops

/-- How a `BodyWriter` handle leaves scope: plain drop, explicit `cancel`,
`close()`, or `trailers(t)`; the three explicit paths consume the writer,
so its drop still runs afterwards (also when `close`/`trailers` panic: the
state was already replaced with `Finished` before the panic and unwinding
drops the writer). -/
inductive WriterExit
  | plainDrop
  | cancelFirst
  | closeFirst
  | trailersFirst (t : HeaderMap)
deriving DecidableEq, Repr

/-- All effects emitted over a writer's lifetime: a sequence of polls,
then the chosen exit path, then the `Drop` that Rust ownership guarantees
runs exactly once. -/
def BodyWriter.lifecycleEffects (w : BodyWriter) (ops : List WriterOp) (ex : WriterExit) :
    List Effect :=
  let w1 := w.runOps ops
  match ex with
  | WriterExit.plainDrop => w1.drop
  | WriterExit.cancelFirst =>
      let p := w1.cancel
      p.2 ++ p.1.drop
  | WriterExit.closeFirst =>
      match w1.close with
      | none => ({ w1 with state := BodyWriterState.Finished }).drop
      | some (w2, es) => es ++ w2.drop
  | WriterExit.trailersFirst t =>
      match w1.trailersFn t with
      | none => ({ w1 with state := BodyWriterState.Finished }).drop
      | some (w2, es) => es ++ w2.drop

/-! ### RecvRequest and Sender (src/quinn-h3/src/server.rs, lines 127-261) -/

/-- `RecvRequestState` (server.rs 127-131). -/
inductive RecvRequestState
  | Receiving (frames : FrameStream) (send : SendStream)
  | Decoding (decode : DecodeHeaders)
  | Finished
deriving DecidableEq, Repr

/-- The `RecvRequest` state (server.rs 133-138); the `conn` field is
represented only through the effects emitted. -/
structure RecvRequest where
  state : RecvRequestState
  stream_id : StreamId
  streams : Option (FrameStream × SendStream)
deriving DecidableEq, Repr

/-- `RecvRequest::new` (server.rs 141-148): the stream id is the id of the
send half. -/
def RecvRequest.new (recv : FrameStream) (send : SendStream) : RecvRequest :=
  { state := RecvRequestState.Receiving recv send
    stream_id := send.id
    streams := none }

/-- `RecvRequest::build_request` (server.rs 150-160); the header-to-parts
conversion lives outside src and is modelled as total. -/
def RecvRequest.build_request (h : Header) : Except Error Request :=
  Except.ok ⟨h⟩

/-- `RecvRequest::reject` (server.rs 162-168): replaces the state with
`Finished`; when the request was still unconsumed (`Receiving`), resets
both the receive half and the send half with `REQUEST_REJECTED`. -/
def RecvRequest.reject (rr : RecvRequest) : RecvRequest × List Effect :=
  match rr.state with
  | RecvRequestState.Receiving _ _ =>
      ({ rr with state := RecvRequestState.Finished },
       [Effect.resetRecv ErrorCode.REQUEST_REJECTED,
        Effect.resetSend ErrorCode.REQUEST_REJECTED])
  | _ => ({ rr with state := RecvRequestState.Finished }, [])

/-- The `Sender` response handle (server.rs 226-230); the `conn` field is
omitted. -/
structure Sender where
  send : SendStream
  stream_id : StreamId
deriving DecidableEq, Repr

/-- The `Decoding` branch of `<RecvRequest as Future>::poll` (server.rs
204-217): on decode completion the state becomes `Finished`, the stashed
stream halves are taken (`try_take`) and the request, body reader (with
`finish_request = false`) and response sender are yielded; a pending or
failed decode leaves the state as it is. -/
def RecvRequest.pollDecoding (rr : RecvRequest) (dec : DecodeEvent) :
    Poll (Except Error (Request × BodyReader × Sender)) × RecvRequest × List Effect :=
  match dec with
  | DecodeEvent.pending => (Poll.pending, rr, [])
  | DecodeEvent.failed e => (Poll.ready (Except.error e), rr, [])
  | DecodeEvent.ready h =>
      let rr1 := { rr with state := RecvRequestState.Finished }
      match rr1.streams with
      | none =>
          (Poll.ready (Except.error (Error.internal "Recv request invalid state")),
           { rr1 with streams := none }, [])
      | some (recv, send) =>
          match RecvRequest.build_request h with
          | Except.error e => (Poll.ready (Except.error e), { rr1 with streams := none }, [])
          | Except.ok req =>
              (Poll.ready (Except.ok
                 (req, BodyReader.new recv rr.stream_id false, ⟨send, rr.stream_id⟩)),
               { rr1 with streams := none }, [])

/-- `<RecvRequest as Future>::poll` (server.rs 174-223).  In the
`Receiving` state one frame-stream event is consumed: end of stream
yields the `received an empty request` error (without resetting the
stream or changing state); a HEADERS frame transitions to `Decoding`,
stashes the remaining stream halves and the loop immediately polls the
decode (`dec` is its oracle outcome); any other frame resets the receive
half with `FRAME_UNEXPECTED` and yields a terminal error; a frame-level
error resets the receive half with its code.  `Finished` yields the
`polled after ready` error. -/
def RecvRequest.poll (rr : RecvRequest) (dec : DecodeEvent) :
    Poll (Except Error (Request × BodyReader × Sender)) × RecvRequest × List Effect :=
  match rr.state with
  | RecvRequestState.Receiving frames send =>
      match frames with
      | [] => (Poll.ready (Except.error (Error.peer "received an empty request")), rr, [])
      | FrameEvent.pending :: rest =>
          (Poll.pending, { rr with state := RecvRequestState.Receiving rest send }, [])
      | FrameEvent.frame (HttpFrame.Headers f) :: rest =>
          let rr1 : RecvRequest :=
            { rr with
                state := RecvRequestState.Decoding ⟨f, rr.stream_id⟩
                streams := some (rest, send) }
          rr1.pollDecoding dec
      | FrameEvent.frame _ :: _ =>
          (Poll.ready (Except.error (Error.peer "first frame is not headers")),
           { rr with state := RecvRequestState.Finished },
           [Effect.resetRecv ErrorCode.FRAME_UNEXPECTED])
      | FrameEvent.frameErr c :: _ =>
          (Poll.ready (Except.error (Error.frameErr c)),
           { rr with state := RecvRequestState.Finished },
           [Effect.resetRecv c])
  | RecvRequestState.Decoding _ => rr.pollDecoding dec
  | RecvRequestState.Finished =>
      (Poll.ready (Except.error (Error.peer "polled after ready")), rr, [])

/-! ### Read-loop harness for body fidelity -/

/-- A frame stream consisting solely of ready DATA frames with the given
payloads, followed by the graceful end of the stream. -/
def dataStream (ds : List (List Nat)) : FrameStream :=
  ds.map fun d => FrameEvent.frame (HttpFrame.Data ⟨d⟩)

/-- The bytes a reader with residual buffer `b` and remaining DATA
payloads `ds` still has to deliver. -/
def repBD (b : Option (List Nat)) (ds : List (List Nat)) : List Nat :=
  b.getD [] ++ ds.flatten

/-- Progress measure: remaining bytes plus remaining frames. -/
def muBD (b : Option (List Nat)) (ds : List (List Nat)) : Nat :=
  (b.getD []).length + ds.flatten.length + ds.length

/-- Repeatedly call `poll_read`, one caller-buffer length per call,
concatenating the bytes delivered; an error or panic stops the loop. -/
def BodyReader.readAllSt : BodyReader → List Nat → List Nat × BodyReader
  | r, [] => ([], r)
  | r, len :: lens =>
      match r.poll_read len with
      | some (ReadOut.ok chunk, r1, _) =>
          let p := r1.readAllSt lens
          (chunk ++ p.1, p.2)
      | _ => ([], r)

end QuinnH3

namespace QuinnH3

lemma poll_read_data (b : Option (List Nat)) (ds : List (List Nat)) (t : Option HeadersFrame)
    (id : StreamId) (fr : Bool) (len : Nat) :
    ∃ chunk b2 ds2,
      BodyReader.poll_read ⟨some (dataStream ds), t, id, b, fr⟩ len
        = some (ReadOut.ok chunk, ⟨some (dataStream ds2), t, id, b2, fr⟩, [])
      ∧ chunk ++ repBD b2 ds2 = repBD b ds
      ∧ muBD b2 ds2 ≤ muBD b ds
      ∧ (1 ≤ len → muBD b2 ds2 ≤ muBD b ds - 1) := by
  rcases b with _ | bb
  · -- no residual buffer
    rcases ds with _ | ⟨d, rest⟩
    · -- empty stream
      refine ⟨[], none, [], ?_, by simp [repBD], le_refl _, fun _ => by simp [muBD]⟩
      rcases len with _ | k
      · simp [BodyReader.poll_read, BodyReader.buf_read, dataStream]
      · simp [BodyReader.poll_read, BodyReader.buf_read, dataStream]
    · rcases Nat.eq_zero_or_pos len with hlen | hlen
      · subst hlen
        refine ⟨[], none, d :: rest, ?_, by simp [repBD], le_refl _, fun h => by omega⟩
        simp [BodyReader.poll_read, BodyReader.buf_read]
      · have h0 : ¬ ((0 : Nat) = len) := by omega
        by_cases hd : len ≤ d.length
        · refine ⟨d.take len, some (d.drop len), rest, ?_, ?_, ?_, ?_⟩
          · simp [BodyReader.poll_read, BodyReader.buf_read, dataStream,
                  BodyReader.buf_put, h0, hd]
          · simp only [repBD, Option.getD_some, Option.getD_none, List.flatten_cons,
                       List.nil_append, ← List.append_assoc, List.take_append_drop]
          · simp only [muBD, Option.getD_some, Option.getD_none, List.length_drop,
                       List.flatten_cons, List.length_append, List.length_nil,
                       List.length_cons]
            omega
          · intro h
            simp only [muBD, Option.getD_some, Option.getD_none, List.length_drop,
                       List.flatten_cons, List.length_append, List.length_nil,
                       List.length_cons]
            omega
        · refine ⟨d, none, rest, ?_, ?_, ?_, ?_⟩
          · simp [BodyReader.poll_read, BodyReader.buf_read, dataStream, h0, hd]
          · simp [repBD]
          · simp only [muBD, Option.getD_some, Option.getD_none, List.flatten_cons,
                       List.length_append, List.length_nil, List.length_cons]
            omega
          · intro h
            simp only [muBD, Option.getD_some, Option.getD_none, List.flatten_cons,
                       List.length_append, List.length_nil, List.length_cons]
            omega
  · -- residual buffer present
    by_cases hle : len ≤ bb.length
    · by_cases hbl : bb.length ≤ len
      · have heq : bb.length = len := le_antisymm hbl hle
        refine ⟨bb, none, ds, ?_, ?_, ?_, ?_⟩
        · simp [BodyReader.poll_read, BodyReader.buf_read, heq]
        · simp [repBD]
        · simp only [muBD, Option.getD_some, Option.getD_none, List.length_nil]
          omega
        · intro h
          simp only [muBD, Option.getD_some, Option.getD_none, List.length_nil]
          omega
      · have hmin : min len bb.length = len := Nat.min_eq_left hle
        refine ⟨bb.take len, some (bb.drop len), ds, ?_, ?_, ?_, ?_⟩
        · simp [BodyReader.poll_read, BodyReader.buf_read, hmin, hbl]
        · simp only [repBD, Option.getD_some, ← List.append_assoc, List.take_append_drop]
        · simp only [muBD, Option.getD_some, List.length_drop]
          omega
        · intro h
          simp only [muBD, Option.getD_some, List.length_take, List.length_drop]
          omega
    · -- buffer shorter than the caller buffer: fully drained, then poll
      have hmin : min len bb.length = bb.length := Nat.min_eq_right (le_of_not_le hle)
      have hne : ¬ (bb.length = len) := fun h => hle (le_of_eq h.symm)
      rcases ds with _ | ⟨d, rest⟩
      · refine ⟨bb, none, [], ?_, by simp [repBD], ?_, ?_⟩
        · simp [BodyReader.poll_read, BodyReader.buf_read, dataStream, hmin, hne]
        · simp only [muBD, Option.getD_some, Option.getD_none, List.length_nil,
                     List.flatten_nil]
          omega
        · intro h
          simp only [muBD, Option.getD_some, Option.getD_none, List.length_nil,
                     List.flatten_nil]
          omega
      · by_cases hd : len - bb.length ≤ d.length
        · refine ⟨bb ++ d.take (len - bb.length), some (d.drop (len - bb.length)), rest,
                  ?_, ?_, ?_, ?_⟩
          · simp [BodyReader.poll_read, BodyReader.buf_read, dataStream,
                  BodyReader.buf_put, hmin, hne, hd]
          · simp only [repBD, Option.getD_some, List.flatten_cons, List.append_assoc]
            rw [← List.append_assoc (List.take _ d), List.take_append_drop]
          · simp only [muBD, Option.getD_some, List.length_drop, List.flatten_cons,
                       List.length_append, List.length_cons]
            omega
          · intro h
            simp only [muBD, Option.getD_some, List.length_drop, List.flatten_cons,
                       List.length_append, List.length_cons]
            omega
        · refine ⟨bb ++ d, none, rest, ?_, ?_, ?_, ?_⟩
          · simp [BodyReader.poll_read, BodyReader.buf_read, dataStream, hmin, hne, hd]
          · simp [repBD]
          · simp only [muBD, Option.getD_some, Option.getD_none, List.flatten_cons,
                       List.length_append, List.length_nil, List.length_cons]
            omega
          · intro h
            simp only [muBD, Option.getD_some, Option.getD_none, List.flatten_cons,
                       List.length_append, List.length_nil, List.length_cons]
            omega


lemma readAllSt_dataSpec (sizes : List Nat) :
    ∀ (b : Option (List Nat)) (ds : List (List Nat)) (t : Option HeadersFrame)
      (id : StreamId) (fr : Bool),
    ∃ out b2 ds2,
      BodyReader.readAllSt ⟨some (dataStream ds), t, id, b, fr⟩ sizes
        = (out, ⟨some (dataStream ds2), t, id, b2, fr⟩)
      ∧ out ++ repBD b2 ds2 = repBD b ds
      ∧ muBD b2 ds2 ≤ muBD b ds
      ∧ ((∀ s ∈ sizes, 1 ≤ s) → muBD b2 ds2 ≤ muBD b ds - sizes.length) := by
  induction sizes with
  | nil => exact fun b ds t id fr => ⟨[], b, ds, rfl, rfl, le_refl _, by simp⟩
  | cons len lens ih =>
      intro b ds t id fr
      obtain ⟨chunk, b1, ds1, hpoll, hrep, hmu, hmu1⟩ := poll_read_data b ds t id fr len
      obtain ⟨out, b2, ds2, hrun, hrep2, hmu2, hmu3⟩ := ih b1 ds1 t id fr
      refine ⟨chunk ++ out, b2, ds2, ?_, ?_, ?_, ?_⟩
      · simp [BodyReader.readAllSt, hpoll, hrun]
      · rw [List.append_assoc, hrep2, hrep]
      · exact le_trans hmu2 hmu
      · intro hall
        have h1 := hmu1 (hall len (by simp))
        have h2 := hmu3 (fun s hs => hall s (by simp [hs]))
        simp only [List.length_cons]
        omega

/-- Claim C3: for every sequence of DATA-frame payloads and every sequence
of positive caller-buffer sizes long enough to account for every byte and
every frame (each read delivers at least one byte or consumes at least
one frame, so total bytes plus frame count reads always suffice — in
particular all-1-byte buffers), reading through `BodyReader.poll_read`
yields exactly the concatenation of the payloads in order: the residual
buffer is drained first and oversized frames are split with the remainder
retained; no byte is lost, duplicated, or reordered. -/
theorem C3_body_fidelity (ds : List (List Nat)) (sizes : List Nat) (id : StreamId) (fr : Bool)
    (hpos : ∀ s ∈ sizes, 1 ≤ s)
    (hlen : ds.flatten.length + ds.length ≤ sizes.length) :
    (BodyReader.readAllSt (BodyReader.new (dataStream ds) id fr) sizes).1 = ds.flatten := by
  obtain ⟨out, b2, ds2, hrun, hrep, hmu, hmuc⟩ := readAllSt_dataSpec sizes none ds none id fr
  have hnew : BodyReader.new (dataStream ds) id fr
      = (⟨some (dataStream ds), none, id, none, fr⟩ : BodyReader) := rfl
  rw [hnew, hrun]
  have h2 := hmuc hpos
  simp only [muBD, Option.getD_none, List.length_nil] at h2
  have h5 : repBD b2 ds2 = [] := by
    have hl : (repBD b2 ds2).length = 0 := by
      simp only [repBD, List.length_append]
      omega
    exact List.eq_nil_of_length_eq_zero hl
  rw [h5, List.append_nil] at hrep
  simp only [repBD, Option.getD_none, List.nil_append] at hrep
  exact hrep

theorem C3_witness :
    (BodyReader.readAllSt (BodyReader.new (dataStream [[1, 2], [3]]) 0 false)
      [1, 1, 1, 1, 1]).1 = ([[1, 2], [3]] : List (List Nat)).flatten :=
  C3_body_fidelity [[1, 2], [3]] [1, 1, 1, 1, 1] 0 false (by decide) (by decide)


end QuinnH3

namespace QuinnH3

lemma poll_read_preserve (r : BodyReader) (len : Nat) (o : ReadOut) (r1 : BodyReader)
    (es : List Effect) (h : r.poll_read len = some (o, r1, es)) :
    r1.stream_id = r.stream_id ∧ r1.finish_request = r.finish_request
      ∧ es.filter Effect.isFinish = [] := by
  obtain ⟨rv, tt, sid, bf, fr⟩ := r
  rcases bf with _ | b <;>
    (simp only [BodyReader.poll_read, BodyReader.buf_read, BodyReader.buf_put] at h
     repeat' split at h) <;>
    simp at h <;>
    (obtain ⟨ho, hr, he⟩ := h
     subst hr
     subst he
     simp [Effect.isFinish])

lemma runReads_preserve (reads : List Nat) (r : BodyReader) :
    (r.runReads reads).1.stream_id = r.stream_id
      ∧ (r.runReads reads).1.finish_request = r.finish_request
      ∧ (r.runReads reads).2.filter Effect.isFinish = [] := by
  induction reads generalizing r with
  | nil => simp [BodyReader.runReads]
  | cons len lens ih =>
      cases hp : r.poll_read len with
      | none => simp [BodyReader.runReads, hp]
      | some x =>
          obtain ⟨o, r1, es⟩ := x
          obtain ⟨h1, h2, h3⟩ := poll_read_preserve r len o r1 es hp
          obtain ⟨g1, g2, g3⟩ := ih r1
          simp [BodyReader.runReads, hp, List.filter_append, h3, g1, g2, g3, h1, h2]

lemma reader_cancel_noFinish (r : BodyReader) : r.cancel.filter Effect.isFinish = [] := by
  cases h : r.recv <;> simp [BodyReader.cancel, h, Effect.isFinish]

lemma reader_lifecycle_finish (rv : Option FrameStream) (t : Option HeadersFrame) (id : StreamId)
    (b : Option (List Nat)) (fr : Bool) (reads : List Nat) (ex : ReaderExit) :
    ((⟨rv, t, id, b, fr⟩ : BodyReader).lifecycleEffects reads ex).filter Effect.isFinish
      = (if fr then [Effect.requestFinished id] else []) := by
  obtain ⟨h1, h2, h3⟩ := runReads_preserve reads ⟨rv, t, id, b, fr⟩
  cases ex <;>
    simp [BodyReader.lifecycleEffects, List.filter_append, h3,
          reader_cancel_noFinish, BodyReader.drop, h1, h2, Effect.isFinish,
          apply_ite (List.filter Effect.isFinish)]


lemma poll_write_preserve (w : BodyWriter) (buf : List Nat) (ev : WriteEvent)
    (p : Poll (Except IoError Nat)) (w1 : BodyWriter)
    (h : w.poll_write buf ev = some (p, w1)) :
    w1.stream_id = w.stream_id ∧ w1.finish_request = w.finish_request := by
  obtain ⟨st, sid, trs, fr⟩ := w
  cases st <;> cases ev <;> simp_all [BodyWriter.poll_write] <;>
    (obtain ⟨h1, h2⟩ := h; subst h2; simp)

lemma poll_flush_preserve (w : BodyWriter) (ev : WriteEvent) :
    (w.poll_flush ev).2.stream_id = w.stream_id
      ∧ (w.poll_flush ev).2.finish_request = w.finish_request := by
  obtain ⟨st, sid, trs, fr⟩ := w
  cases st <;> cases ev <;> simp [BodyWriter.poll_flush]

lemma poll_close_preserve (w : BodyWriter) (ev : WriteEvent) :
    (w.poll_close ev).2.stream_id = w.stream_id
      ∧ (w.poll_close ev).2.finish_request = w.finish_request := by
  obtain ⟨st, sid, trs, fr⟩ := w
  cases st <;> cases ev <;> simp [BodyWriter.poll_close]

lemma runOps_preserve (ops : List WriterOp) (w : BodyWriter) :
    (w.runOps ops).stream_id = w.stream_id
      ∧ (w.runOps ops).finish_request = w.finish_request := by
  induction ops generalizing w with
  | nil => simp [BodyWriter.runOps]
  | cons op ops ih =>
      cases op with
      | write buf ev =>
          cases hp : w.poll_write buf ev with
          | none => simp [BodyWriter.runOps, hp]
          | some x =>
              obtain ⟨p, w1⟩ := x
              obtain ⟨h1, h2⟩ := poll_write_preserve w buf ev p w1 hp
              obtain ⟨g1, g2⟩ := ih w1
              simp [BodyWriter.runOps, hp, g1, g2, h1, h2]
      | flushOp ev =>
          obtain ⟨h1, h2⟩ := poll_flush_preserve w ev
          obtain ⟨g1, g2⟩ := ih (w.poll_flush ev).2
          simp [BodyWriter.runOps, g1, g2, h1, h2]
      | closeOp ev =>
          obtain ⟨h1, h2⟩ := poll_close_preserve w ev
          obtain ⟨g1, g2⟩ := ih (w.poll_close ev).2
          simp [BodyWriter.runOps, g1, g2, h1, h2]

lemma writer_cancel_spec (w : BodyWriter) :
    (w.cancel).1.stream_id = w.stream_id
      ∧ (w.cancel).1.finish_request = w.finish_request
      ∧ (w.cancel).2.filter Effect.isFinish = [] := by
  obtain ⟨st, sid, trs, fr⟩ := w
  cases st <;> simp [BodyWriter.cancel, Effect.isFinish]

lemma writer_close_spec (w : BodyWriter) (w2 : BodyWriter) (es : List Effect)
    (h : w.close = some (w2, es)) :
    w2.stream_id = w.stream_id ∧ w2.finish_request = w.finish_request
      ∧ es.filter Effect.isFinish = [] := by
  obtain ⟨st, sid, trs, fr⟩ := w
  cases trs <;> cases st <;> simp_all [BodyWriter.close] <;>
    (obtain ⟨h1, h2⟩ := h; subst h1; subst h2; simp [Effect.isFinish])

lemma writer_trailersFn_spec (w : BodyWriter) (t : HeaderMap) (w2 : BodyWriter)
    (es : List Effect) (h : w.trailersFn t = some (w2, es)) :
    w2.stream_id = w.stream_id ∧ w2.finish_request = w.finish_request
      ∧ es.filter Effect.isFinish = [] := by
  obtain ⟨st, sid, trs, fr⟩ := w
  cases st <;> simp_all [BodyWriter.trailersFn] <;>
    (obtain ⟨h1, h2⟩ := h; subst h1; subst h2; simp [Effect.isFinish])


lemma writer_lifecycle_finish (st : BodyWriterState) (id : StreamId) (trs : Option HeaderMap)
    (fr : Bool) (ops : List WriterOp) (ex : WriterExit) :
    ((⟨st, id, trs, fr⟩ : BodyWriter).lifecycleEffects ops ex).filter Effect.isFinish
      = (if fr then [Effect.requestFinished id] else []) := by
  obtain ⟨h1, h2⟩ := runOps_preserve ops ⟨st, id, trs, fr⟩
  cases ex with
  | plainDrop =>
      simp [BodyWriter.lifecycleEffects, BodyWriter.drop, h1, h2, Effect.isFinish,
            apply_ite (List.filter Effect.isFinish)]
  | cancelFirst =>
      obtain ⟨g1, g2, g3⟩ := writer_cancel_spec ((⟨st, id, trs, fr⟩ : BodyWriter).runOps ops)
      simp [BodyWriter.lifecycleEffects, BodyWriter.drop, List.filter_append, g3,
            g1, g2, h1, h2, Effect.isFinish, apply_ite (List.filter Effect.isFinish)]
  | closeFirst =>
      cases hc : ((⟨st, id, trs, fr⟩ : BodyWriter).runOps ops).close with
      | none =>
          simp [BodyWriter.lifecycleEffects, hc, BodyWriter.drop, h1, h2, Effect.isFinish,
                apply_ite (List.filter Effect.isFinish)]
      | some x =>
          obtain ⟨w2, es⟩ := x
          obtain ⟨g1, g2, g3⟩ := writer_close_spec _ w2 es hc
          simp [BodyWriter.lifecycleEffects, hc, BodyWriter.drop, List.filter_append, g3,
                g1, g2, h1, h2, Effect.isFinish, apply_ite (List.filter Effect.isFinish)]
  | trailersFirst t =>
      cases hc : ((⟨st, id, trs, fr⟩ : BodyWriter).runOps ops).trailersFn t with
      | none =>
          simp [BodyWriter.lifecycleEffects, hc, BodyWriter.drop, h1, h2, Effect.isFinish,
                apply_ite (List.filter Effect.isFinish)]
      | some x =>
          obtain ⟨w2, es⟩ := x
          obtain ⟨g1, g2, g3⟩ := writer_trailersFn_spec _ t w2 es hc
          simp [BodyWriter.lifecycleEffects, hc, BodyWriter.drop, List.filter_append, g3,
                g1, g2, h1, h2, Effect.isFinish, apply_ite (List.filter Effect.isFinish)]


/-- Claim C1: for every stream whose body handle (`BodyReader` or
`BodyWriter`) carries request-lifecycle responsibility
(`finish_request = true`), the `request_finished(stream_id)` notification
is emitted exactly once over the handle's whole lifetime — and with the
handle's own stream id — on every exit path (any sequence of reads or
writes including error outcomes, followed by explicit cancel, close,
trailers, or plain drop); a handle without the responsibility never
emits it. -/
theorem C1_request_finished_exactly_once :
    (∀ (rv : Option FrameStream) (t : Option HeadersFrame) (id : StreamId)
       (b : Option (List Nat)) (fr : Bool) (reads : List Nat) (ex : ReaderExit),
       ((⟨rv, t, id, b, fr⟩ : BodyReader).lifecycleEffects reads ex).filter Effect.isFinish
         = (if fr then [Effect.requestFinished id] else []))
    ∧ (∀ (st : BodyWriterState) (id : StreamId) (trs : Option HeaderMap) (fr : Bool)
         (ops : List WriterOp) (ex : WriterExit),
       ((⟨st, id, trs, fr⟩ : BodyWriter).lifecycleEffects ops ex).filter Effect.isFinish
         = (if fr then [Effect.requestFinished id] else [])) :=
  ⟨reader_lifecycle_finish, writer_lifecycle_finish⟩


end QuinnH3

namespace QuinnH3

/-- Claim C2 counterexample: when the very first frame-stream event is the
end of the stream, `RecvRequest::poll` yields the terminal
`received an empty request` error but emits no stream reset at all (the
effect list is empty) and even leaves the state in `Receiving` — contrary
to the claim that any non-HEADERS first event resets the receiving
stream. -/
theorem C2_end_of_stream_no_reset :
    RecvRequest.poll ⟨RecvRequestState.Receiving [] ⟨0⟩, 0, none⟩ DecodeEvent.pending
      = (Poll.ready (Except.error (Error.peer "received an empty request")),
         ⟨RecvRequestState.Receiving [] ⟨0⟩, 0, none⟩, []) := rfl

/-- Claim C2 (amended): in the `Receiving` state, a first HEADERS frame
transitions the machine to `Decoding` (stashing the remaining stream
halves); a first frame of any other type yields a terminal error with
the state moved to `Finished` and the receiving stream reset with
`FRAME_UNEXPECTED`; a frame-level error does the same with the error's
own code; end of stream yields a terminal error without resetting the
stream and without changing the state. -/
theorem C2_first_frame_dispatch :
    (∀ (h : HeadersFrame) (rest : FrameStream) (send : SendStream) (id : StreamId)
       (st : Option (FrameStream × SendStream)),
       RecvRequest.poll ⟨RecvRequestState.Receiving
           (FrameEvent.frame (HttpFrame.Headers h) :: rest) send, id, st⟩ DecodeEvent.pending
         = (Poll.pending, ⟨RecvRequestState.Decoding ⟨h, id⟩, id, some (rest, send)⟩, []))
    ∧ (∀ (d : DataFrame) (rest : FrameStream) (send : SendStream) (id : StreamId)
         (st : Option (FrameStream × SendStream)) (dec : DecodeEvent),
       RecvRequest.poll ⟨RecvRequestState.Receiving
           (FrameEvent.frame (HttpFrame.Data d) :: rest) send, id, st⟩ dec
         = (Poll.ready (Except.error (Error.peer "first frame is not headers")),
            ⟨RecvRequestState.Finished, id, st⟩,
            [Effect.resetRecv ErrorCode.FRAME_UNEXPECTED]))
    ∧ (∀ (rest : FrameStream) (send : SendStream) (id : StreamId)
         (st : Option (FrameStream × SendStream)) (dec : DecodeEvent),
       RecvRequest.poll ⟨RecvRequestState.Receiving
           (FrameEvent.frame HttpFrame.Settings :: rest) send, id, st⟩ dec
         = (Poll.ready (Except.error (Error.peer "first frame is not headers")),
            ⟨RecvRequestState.Finished, id, st⟩,
            [Effect.resetRecv ErrorCode.FRAME_UNEXPECTED]))
    ∧ (∀ (rest : FrameStream) (send : SendStream) (id : StreamId)
         (st : Option (FrameStream × SendStream)) (dec : DecodeEvent),
       RecvRequest.poll ⟨RecvRequestState.Receiving
           (FrameEvent.frame HttpFrame.Goaway :: rest) send, id, st⟩ dec
         = (Poll.ready (Except.error (Error.peer "first frame is not headers")),
            ⟨RecvRequestState.Finished, id, st⟩,
            [Effect.resetRecv ErrorCode.FRAME_UNEXPECTED]))
    ∧ (∀ (c : ErrorCode) (rest : FrameStream) (send : SendStream) (id : StreamId)
         (st : Option (FrameStream × SendStream)) (dec : DecodeEvent),
       RecvRequest.poll ⟨RecvRequestState.Receiving
           (FrameEvent.frameErr c :: rest) send, id, st⟩ dec
         = (Poll.ready (Except.error (Error.frameErr c)),
            ⟨RecvRequestState.Finished, id, st⟩, [Effect.resetRecv c]))
    ∧ (∀ (send : SendStream) (id : StreamId) (st : Option (FrameStream × SendStream))
         (dec : DecodeEvent),
       RecvRequest.poll ⟨RecvRequestState.Receiving [] send, id, st⟩ dec
         = (Poll.ready (Except.error (Error.peer "received an empty request")),
            ⟨RecvRequestState.Receiving [] send, id, st⟩, [])) := by
  refine ⟨?_, ?_, ?_, ?_, ?_, ?_⟩ <;> intros <;> rfl

/-- Claim C9: polling a `RecvRequest` that already reached `Finished`
yields the `polled after ready` internal-usage error instead of a second
request, leaves the state unchanged and emits no effects. -/
theorem C9_poll_after_finished (id : StreamId) (st : Option (FrameStream × SendStream))
    (dec : DecodeEvent) :
    RecvRequest.poll ⟨RecvRequestState.Finished, id, st⟩ dec
      = (Poll.ready (Except.error (Error.peer "polled after ready")),
         ⟨RecvRequestState.Finished, id, st⟩, []) := rfl

/-- Claim C5: rejecting an inbound request that is still unconsumed (in
the `Receiving` state, before header decode begins) resets first the
receive half and then the send half with `REQUEST_REJECTED`, moves the
machine to `Finished`, and any later poll yields an error rather than a
request object. -/
theorem C5_reject_resets_both (recv : FrameStream) (send : SendStream) (id : StreamId)
    (st : Option (FrameStream × SendStream)) :
    RecvRequest.reject ⟨RecvRequestState.Receiving recv send, id, st⟩
      = (⟨RecvRequestState.Finished, id, st⟩,
         [Effect.resetRecv ErrorCode.REQUEST_REJECTED,
          Effect.resetSend ErrorCode.REQUEST_REJECTED])
    ∧ ∀ dec : DecodeEvent,
        ((RecvRequest.reject ⟨RecvRequestState.Receiving recv send, id, st⟩).1.poll dec).1
          = Poll.ready (Except.error (Error.peer "polled after ready")) := by
  exact ⟨rfl, fun dec => rfl⟩


/-- Claim C6: cancelling a body handle with a live stream immediately
emits a stream reset with `REQUEST_CANCELLED` — for a `BodyReader` that
still owns its frame stream, and for a `BodyWriter` from both the idle
and the in-flight (writing) state, which also lands in `Finished`; after
that no further frames are processed by the handle: a finished writer's
`poll_write` only panics and its `poll_flush` reports success without
touching the stream (the reader was consumed by `cancel`). -/
theorem C6_cancel_resets :
    (∀ (fs : FrameStream) (t : Option HeadersFrame) (id : StreamId)
       (b : Option (List Nat)) (fr : Bool),
       (⟨some fs, t, id, b, fr⟩ : BodyReader).cancel
         = [Effect.resetRecv ErrorCode.REQUEST_CANCELLED])
    ∧ (∀ (send : SendStream) (id : StreamId) (trs : Option HeaderMap) (fr : Bool),
       (⟨BodyWriterState.Idle send, id, trs, fr⟩ : BodyWriter).cancel
         = (⟨BodyWriterState.Finished, id, trs, fr⟩,
            [Effect.resetSend ErrorCode.REQUEST_CANCELLED]))
    ∧ (∀ (wf : WriteFrame) (id : StreamId) (trs : Option HeaderMap) (fr : Bool),
       (⟨BodyWriterState.Writing wf, id, trs, fr⟩ : BodyWriter).cancel
         = (⟨BodyWriterState.Finished, id, trs, fr⟩,
            [Effect.resetSend ErrorCode.REQUEST_CANCELLED]))
    ∧ (∀ (id : StreamId) (trs : Option HeaderMap) (fr : Bool) (buf : List Nat)
         (ev : WriteEvent),
       (⟨BodyWriterState.Finished, id, trs, fr⟩ : BodyWriter).poll_write buf ev = none)
    ∧ (∀ (id : StreamId) (trs : Option HeaderMap) (fr : Bool) (ev : WriteEvent),
       (⟨BodyWriterState.Finished, id, trs, fr⟩ : BodyWriter).poll_flush ev
         = (Poll.ready (Except.ok ()), ⟨BodyWriterState.Finished, id, trs, fr⟩)) := by
  refine ⟨?_, ?_, ?_, ?_, ?_⟩ <;> intros <;> rfl

/-- Claim C7: a `poll_read` whose residual buffer contributes no bytes
(absent, or present but empty) and whose frame-stream poll is not ready
returns the `WouldBlock` "stream blocked" error instead of suspending;
when the residual buffer contributed at least one byte in the same call,
those bytes are returned successfully instead. -/
theorem C7_pending_wouldblock :
    (∀ (rest : FrameStream) (t : Option HeadersFrame) (id : StreamId) (fr : Bool) (k : Nat),
       BodyReader.poll_read ⟨some (FrameEvent.pending :: rest), t, id, none, fr⟩ (k + 1)
         = some (ReadOut.err ⟨IoErrorKind.WouldBlock, "stream blocked"⟩,
                 ⟨some rest, t, id, none, fr⟩, []))
    ∧ (∀ (rest : FrameStream) (t : Option HeadersFrame) (id : StreamId) (fr : Bool) (k : Nat),
       BodyReader.poll_read ⟨some (FrameEvent.pending :: rest), t, id, some [], fr⟩ (k + 1)
         = some (ReadOut.err ⟨IoErrorKind.WouldBlock, "stream blocked"⟩,
                 ⟨some rest, t, id, none, fr⟩, []))
    ∧ (∀ (rest : FrameStream) (t : Option HeadersFrame) (id : StreamId) (fr : Bool)
         (x : Nat) (bs : List Nat) (k : Nat),
       BodyReader.poll_read ⟨some (FrameEvent.pending :: rest), t, id, some (x :: bs), fr⟩
           ((x :: bs).length + (k + 1))
         = some (ReadOut.ok (x :: bs), ⟨some rest, t, id, none, fr⟩, [])) := by
  refine ⟨?_, ?_, ?_⟩
  · intro rest t id fr k
    simp [BodyReader.poll_read, BodyReader.buf_read]
  · intro rest t id fr k
    simp [BodyReader.poll_read, BodyReader.buf_read]
  · intro rest t id fr x bs k
    have hmin : min ((x :: bs).length + (k + 1)) (x :: bs).length = (x :: bs).length := by
      omega
    have hne : ¬ ((x :: bs).length = (x :: bs).length + (k + 1)) := by omega
    simp [BodyReader.poll_read, BodyReader.buf_read, hmin, hne]

/-- Claim C8: `trailers(t)` and `close()` succeed only from the idle
state, in which they consume the writer into the `Finished` state while
sending the trailers and/or finishing the stream; from the writing or
finished state either call panics (modelled as `none`) instead of
silently corrupting state. -/
theorem C8_writer_terminal_ops :
    (∀ (send : SendStream) (id : StreamId) (trs : Option HeaderMap) (fr : Bool)
       (t : HeaderMap),
       (⟨BodyWriterState.Idle send, id, trs, fr⟩ : BodyWriter).trailersFn t
         = some (⟨BodyWriterState.Finished, id, trs, fr⟩,
                 [Effect.sentTrailers t, Effect.finishedSend]))
    ∧ (∀ (wf : WriteFrame) (id : StreamId) (trs : Option HeaderMap) (fr : Bool)
         (t : HeaderMap),
       (⟨BodyWriterState.Writing wf, id, trs, fr⟩ : BodyWriter).trailersFn t = none)
    ∧ (∀ (id : StreamId) (trs : Option HeaderMap) (fr : Bool) (t : HeaderMap),
       (⟨BodyWriterState.Finished, id, trs, fr⟩ : BodyWriter).trailersFn t = none)
    ∧ (∀ (send : SendStream) (id : StreamId) (fr : Bool) (t : HeaderMap),
       (⟨BodyWriterState.Idle send, id, some t, fr⟩ : BodyWriter).close
         = some (⟨BodyWriterState.Finished, id, none, fr⟩,
                 [Effect.sentTrailers t, Effect.finishedSend]))
    ∧ (∀ (send : SendStream) (id : StreamId) (fr : Bool),
       (⟨BodyWriterState.Idle send, id, none, fr⟩ : BodyWriter).close
         = some (⟨BodyWriterState.Finished, id, none, fr⟩, [Effect.finishedSend]))
    ∧ (∀ (wf : WriteFrame) (id : StreamId) (trs : Option HeaderMap) (fr : Bool),
       (⟨BodyWriterState.Writing wf, id, trs, fr⟩ : BodyWriter).close = none)
    ∧ (∀ (id : StreamId) (trs : Option HeaderMap) (fr : Bool),
       (⟨BodyWriterState.Finished, id, trs, fr⟩ : BodyWriter).close = none) := by
  refine ⟨?_, ?_, ?_, ?_, ?_, ?_, ?_⟩ <;> intros <;> first | rfl | (rename_i trs _; cases trs <;> rfl)

/-- Claim C10: a `poll_flush` that completes on an idle writer moves it
to `Finished` (not back to idle), so that any later `poll_write` — even
though neither `close()` nor `trailers()` was ever called — is a usage
error that panics (modelled as `none`). -/
theorem C10_flush_finishes_writer :
    (∀ (send : SendStream) (id : StreamId) (trs : Option HeaderMap) (fr : Bool),
       (⟨BodyWriterState.Idle send, id, trs, fr⟩ : BodyWriter).poll_flush WriteEvent.ready
         = (Poll.ready (Except.ok ()), ⟨BodyWriterState.Finished, id, trs, fr⟩))
    ∧ (∀ (id : StreamId) (trs : Option HeaderMap) (fr : Bool) (buf : List Nat)
         (ev : WriteEvent),
       (⟨BodyWriterState.Finished, id, trs, fr⟩ : BodyWriter).poll_write buf ev = none) := by
  exact ⟨fun send id trs fr => rfl, fun id trs fr buf ev => rfl⟩


lemma poll_read_trailers_preserve (r : BodyReader) (len : Nat) (o : ReadOut) (r1 : BodyReader)
    (es : List Effect) (h : r.poll_read len = some (o, r1, es))
    (hh : r.recvHeadIsHeaders = false) : r1.trailers = r.trailers := by
  obtain ⟨rv, tt, sid, bf, fr⟩ := r
  simp only [BodyReader.recvHeadIsHeaders] at hh
  rcases bf with _ | b <;>
    (simp only [BodyReader.poll_read, BodyReader.buf_read, BodyReader.buf_put] at h
     repeat' split at h) <;>
    simp_all <;>
    (obtain ⟨ho, hr, he⟩ := h
     subst hr
     simp)

/-- Claim C4: a HEADERS frame encountered during body reading is retained
as trailers and ends body delivery (`Ok` with zero bytes when no residual
was pending); the `trailers()` accessor returns nothing while no trailing
HEADERS frame has been captured — reads that do not consume a HEADERS
event never set it, in particular a body of DATA frames only never does —
and once the trailing HEADERS frame has been consumed the accessor
returns exactly its decode. -/
theorem C4_trailer_gating :
    (∀ (r : BodyReader) (decode : HeadersFrame → Except Error Header),
       r.trailers = none → (r.trailersFn decode).1 = none)
    ∧ (∀ (r : BodyReader) (len : Nat) (o : ReadOut) (r1 : BodyReader) (es : List Effect),
       r.poll_read len = some (o, r1, es) → r.recvHeadIsHeaders = false →
       r1.trailers = r.trailers)
    ∧ (∀ (h : HeadersFrame) (rest : FrameStream) (t : Option HeadersFrame) (id : StreamId)
         (fr : Bool) (k : Nat) (decode : HeadersFrame → Except Error Header),
       BodyReader.poll_read ⟨some (FrameEvent.frame (HttpFrame.Headers h) :: rest),
           t, id, none, fr⟩ (k + 1)
         = some (ReadOut.ok [], ⟨some rest, some h, id, none, fr⟩, [])
       ∧ ((⟨some rest, some h, id, none, fr⟩ : BodyReader).trailersFn decode).1
           = some (decode h))
    ∧ (∀ (ds : List (List Nat)) (sizes : List Nat) (id : StreamId) (fr : Bool)
         (decode : HeadersFrame → Except Error Header),
       (((BodyReader.readAllSt (BodyReader.new (dataStream ds) id fr) sizes).2).trailersFn
           decode).1 = none) := by
  refine ⟨?_, ?_, ?_, ?_⟩
  · intro r decode hnone
    simp [BodyReader.trailersFn, hnone]
  · exact poll_read_trailers_preserve
  · intro h rest t id fr k decode
    constructor
    · simp [BodyReader.poll_read, BodyReader.buf_read]
    · simp [BodyReader.trailersFn]
  · intro ds sizes id fr decode
    obtain ⟨out, b2, ds2, hrun, _, _, _⟩ := readAllSt_dataSpec sizes none ds none id fr
    have hnew : BodyReader.new (dataStream ds) id fr
        = (⟨some (dataStream ds), none, id, none, fr⟩ : BodyReader) := rfl
    rw [hnew, hrun]
    simp [BodyReader.trailersFn]

theorem C4_witness :
    ((⟨some [], none, 0, none, false⟩ : BodyReader).trailersFn
        (fun _ => Except.ok [])).1 = none
    ∧ ((⟨some [], none, 0, some [], false⟩ : BodyReader).trailers
        = (⟨some [FrameEvent.frame (HttpFrame.Data ⟨[5]⟩)], none, 0, none,
            false⟩ : BodyReader).trailers) :=
  ⟨C4_trailer_gating.1 ⟨some [], none, 0, none, false⟩ (fun _ => Except.ok []) rfl,
   C4_trailer_gating.2.1 ⟨some [FrameEvent.frame (HttpFrame.Data ⟨[5]⟩)], none, 0, none, false⟩
     1 (ReadOut.ok [5]) ⟨some [], none, 0, some [], false⟩ [] (by decide) (by decide)⟩


end QuinnH3
